import Mathlib

/-!
Shallow embedding of the two upload handlers of the Tubely file-storage
service: `handler_upload_video.go` and `handler_upload_thumbnail.go`.

Effectful collaborator calls (JWT validation, database fetch and update,
file I/O, the ffprobe subprocess, the S3 put) are modelled by recording
their outcomes as fields of a request environment; each handler is then a
pure function from that environment to the response it writes and the
side effects it performs.  Go semantics the development hinges on are
modelled explicitly:

* Go integer division truncates toward zero (`Int.tdiv`) and panics on a
  zero divisor; `goDiv` returns `none` for that panic.
* `log.Fatal` prints and then calls `os.Exit(1)`: deferred calls do not
  run and nothing is returned to the caller.
* Indexing an empty slice panics; deferred calls do run while a panic
  unwinds (the net/http server recovers handler panics per request).
-/

/-- The video metadata record (`database.Video`).  `id` and `userID` stand
for the identifiers; `title` and `description` stand for the descriptive
fields the handlers pass through unchanged. -/
structure Video where
  id : Nat
  userID : Nat
  videoURL : Option String
  thumbnailURL : Option String
  title : String
  description : String
deriving DecidableEq

/-- The process-wide configuration (`apiConfig`) fields the handlers read. -/
structure ApiConfig where
  s3Bucket : String
  s3Region : String
  port : String
  assetsRoot : String
deriving DecidableEq

/-- One stream descriptor parsed from the ffprobe JSON output (the local
`StreamInfo` type of `getVideoAspectRatio`): integer width and height. -/
structure StreamInfo where
  width : Int
  height : Int
deriving DecidableEq

/-- Go integer division: truncates toward zero; a zero divisor is a
runtime panic, modelled as `none`. -/
def goDiv (a b : Int) : Option Int :=
  if b = 0 then none else some (Int.tdiv a b)

/-- How a call to `getVideoAspectRatio` can end: a normal `(ratio, nil)`
return, a return with a non-nil error, a `log.Fatal` (process exit), or a
runtime panic. -/
inductive ProbeOutcome where
  | ok (ratio : String)
  | errReturn
  | fatal
  | panicked
deriving DecidableEq

/-- Lines 172 to 177 of `handler_upload_video.go`: classify the parsed
stream list.  `file.Streams[0]` on an empty list is an out-of-range
panic; each division panics when its divisor is zero; `16/9` is Go
constant integer division (so it equals `1`). -/
def classifyFirstStream (streams : List StreamInfo) : ProbeOutcome :=
  match streams with
  | [] => .panicked
  | s :: _ =>
    match goDiv s.width s.height with
    | none => .panicked
    | some q =>
      if q = Int.tdiv 16 9 then .ok "16:9"
      else
        match goDiv s.height s.width with
        | none => .panicked
        | some r =>
          if r = Int.tdiv 16 9 then .ok "9:16" else .ok "other"

/-- Outcome of `cmd.Run()` for the ffprobe subprocess: exited with status
zero, exited non-zero (an `exec.ExitError`), or failed to start (an error
that `errors.As(err, &exitErr)` does not match). -/
inductive RunOutcome where
  | success
  | exitError
  | startError
deriving DecidableEq

/-- The environment of one `getVideoAspectRatio` call: how the subprocess
run ended, and what `json.Unmarshal` makes of the captured stdout buffer
(`none` for an unmarshal error, `some streams` for the parsed list). -/
structure ProbeEnv where
  run : RunOutcome
  parse : Option (List StreamInfo)
deriving DecidableEq

/-- Embeds `getVideoAspectRatio` (lines 144 to 178).  On an
`exec.ExitError` the code calls `log.Fatal`, which exits the process; the
`return "", err` after it is dead code, so no error ever reaches the
caller on that path.  A run error that is not an `exec.ExitError` is not
checked at all and execution falls through to the unmarshal step.  An
unmarshal error likewise hits `log.Fatal`.  Only a parsed stream list
reaches the classification of lines 172 to 177. -/
def getVideoAspectRatio (env : ProbeEnv) : ProbeOutcome :=
  match env.run with
  | .exitError => .fatal
  | _ =>
    match env.parse with
    | none => .fatal
    | some streams => classifyFirstStream streams

/-- The `switch aspectRatio` of `handlerUploadVideo`, lines 104 to 111. -/
def videoTypeOf (aspectRatio : String) : String :=
  if aspectRatio = "16:9" then "landscape"
  else if aspectRatio = "9:16" then "portrait"
  else "other"

/-- A lowercase hex digit, as produced by Go `encoding/hex` (alphabet
0123456789abcdef): 48 is the code of 0, 87 + 10 the code of a. -/
def hexDigit (n : Nat) : Char :=
  if n < 10 then Char.ofNat (48 + n) else Char.ofNat (87 + n)

/-- The character list underlying Go `hex.EncodeToString`: two lowercase
hex digits per byte, high nibble first. -/
def hexChars (bs : List (Fin 256)) : List Char :=
  (bs.map fun b => [hexDigit (b.val / 16), hexDigit (b.val % 16)]).flatten

/-- Go `hex.EncodeToString` on a byte slice. -/
def hexEncodeToString (bs : List (Fin 256)) : String :=
  String.mk (hexChars bs)

/-- A character of the base64 URL alphabet (A to Z, a to z, 0 to 9, then
minus and underscore), as used by Go `base64.RawURLEncoding`. -/
def b64URLChar (n : Nat) : Char :=
  if n < 26 then Char.ofNat (65 + n)
  else if n < 52 then Char.ofNat (97 + (n - 26))
  else if n < 62 then Char.ofNat (48 + (n - 52))
  else if n = 62 then Char.ofNat 45
  else Char.ofNat 95

/-- Go `base64.RawURLEncoding.EncodeToString`: URL alphabet, no padding;
each group of three bytes yields four characters, a trailing group of one
or two bytes yields two or three. -/
def base64RawURLEncode : List (Fin 256) → List Char
  | [] => []
  | [a] => [b64URLChar (a.val / 4), b64URLChar (a.val % 4 * 16)]
  | [a, b] =>
    [b64URLChar (a.val / 4), b64URLChar (a.val % 4 * 16 + b.val / 16),
     b64URLChar (b.val % 16 * 4)]
  | a :: b :: c :: rest =>
    b64URLChar (a.val / 4) :: b64URLChar (a.val % 4 * 16 + b.val / 16) ::
    b64URLChar (b.val % 16 * 4 + c.val / 64) :: b64URLChar (c.val % 64) ::
    base64RawURLEncode rest

/-- How one handler invocation ends: an HTTP response with the given
status written by `respondWithError` or `respondWithJSON`, a process exit
(`log.Fatal` in a callee), or a panic propagating out of the handler. -/
inductive HandlerOutcome where
  | response (status : Nat)
  | processExit
  | panicked
deriving DecidableEq

/-- Deferred calls run when the enclosing function returns normally and
while a panic unwinds the stack, but not when `os.Exit` (reached via
`log.Fatal`) terminates the process. -/
def defersRun : HandlerOutcome → Bool
  | .processExit => false
  | _ => true

/-- The environment of one `handlerUploadVideo` request: the outcome of
each effectful step, in program order.  `videoIDOk` is success of
`uuid.Parse`; `tokenOk` of `auth.GetBearerToken`; `jwtUser` the identity
from `auth.ValidateJWT`; `getVideoResult` from `cfg.db.GetVideo`;
`formFileOk` success of `r.FormFile("video")` (which also fails when the
1 GiB `http.MaxBytesReader` cap trips); `contentType` the media type from
`mime.ParseMediaType` on the part header; `createTempOk`, `copyOk`,
`seekOk` the temp-file steps; `probe` the environment of the
`getVideoAspectRatio` call; `randOk` and `randBytes` the `rand.Read` of
32 bytes; `putObjectOk` the S3 put; `updateOk` `cfg.db.UpdateVideo`. -/
structure VideoReq where
  videoIDOk : Bool
  tokenOk : Bool
  jwtUser : Option Nat
  getVideoResult : Option Video
  formFileOk : Bool
  contentType : Option String
  createTempOk : Bool
  copyOk : Bool
  seekOk : Bool
  probe : ProbeEnv
  randOk : Bool
  randBytes : List (Fin 256)
  putObjectOk : Bool
  updateOk : Bool
deriving DecidableEq

/-- The observable effects of one `handlerUploadVideo` request. -/
structure VideoEffects where
  tempCreated : Bool
  tempRemoved : Bool
  s3PutCalled : Bool
  updateCalled : Bool
  updatedRecord : Option Video
  outcome : HandlerOutcome
deriving DecidableEq

/-- Effects of an exit taken with no side effect performed yet. -/
def vEff (o : HandlerOutcome) : VideoEffects :=
  { tempCreated := false, tempRemoved := false, s3PutCalled := false,
    updateCalled := false, updatedRecord := none, outcome := o }

/-- Effects of an error response written before any side effect. -/
def vErr (status : Nat) : VideoEffects :=
  vEff (.response status)

/-- Lines 85 to 141 of `handlerUploadVideo`: the steps that run after the
temp file exists, before the deferred calls are applied — Copy (500),
Seek (500), `getVideoAspectRatio` (a non-nil returned error would give
500; a `log.Fatal` inside it instead exits the process, and a panic
unwinds out of the handler), the `switch` to a videoType label,
`rand.Read` (500), the key and the S3 PutObject (500), the videoURL
template and UpdateVideo (400), and finally 200 with the updated record. -/
def videoUploadSteps (cfg : ApiConfig) (req : VideoReq) (videoMetadata : Video) :
    VideoEffects :=
  if !req.copyOk then vErr 500
  else if !req.seekOk then vErr 500
  else
    match getVideoAspectRatio req.probe with
    | .fatal => vEff .processExit
    | .panicked => vEff .panicked
    | .errReturn => vErr 500
    | .ok aspectRatio =>
      let videoType := videoTypeOf aspectRatio
      if !req.randOk then vErr 500
      else
        let key := videoType ++ "/" ++ hexEncodeToString req.randBytes ++ ".mp4"
        if !req.putObjectOk then { vErr 500 with s3PutCalled := true }
        else
          let videoURL := "https://" ++ cfg.s3Bucket ++ ".s3." ++
            cfg.s3Region ++ ".amazonaws.com/" ++ key
          let updated := { videoMetadata with videoURL := some videoURL }
          if !req.updateOk then
            { vErr 400 with
                s3PutCalled := true,
                updateCalled := true,
                updatedRecord := some updated }
          else
            { vEff (.response 200) with
                s3PutCalled := true,
                updateCalled := true,
                updatedRecord := some updated }

/-- Embeds `handlerUploadVideo` (lines 23 to 142), in source order: id
parse (400), bearer token (401), JWT (401), GetVideo (500), ownership
(401), FormFile (400), media-type parse (400), the `video/mp4` allow-list
(400), CreateTemp (500) — from here `defer os.Remove(tempFile.Name())`
and `defer tempFile.Close()` are registered — Copy (500), Seek (500),
`getVideoAspectRatio` (a non-nil returned error would give 500; a
`log.Fatal` inside it instead exits the process, and a panic unwinds out
of the handler), `rand.Read` (500), the S3 PutObject (500), UpdateVideo
(400), and finally 200 with the updated record.  The deferred removal
runs exactly when the outcome is not a process exit. -/
def handlerUploadVideo (cfg : ApiConfig) (req : VideoReq) : VideoEffects :=
  if !req.videoIDOk then vErr 400
  else if !req.tokenOk then vErr 401
  else
    match req.jwtUser with
    | none => vErr 401
    | some userID =>
      match req.getVideoResult with
      | none => vErr 500
      | some videoMetadata =>
        if userID ≠ videoMetadata.userID then vErr 401
        else if !req.formFileOk then vErr 400
        else
          match req.contentType with
          | none => vErr 400
          | some mediaType =>
            if mediaType ≠ "video/mp4" then vErr 400
            else if !req.createTempOk then vErr 500
            else
              let inner := videoUploadSteps cfg req videoMetadata
              { inner with tempCreated := true, tempRemoved := defersRun inner.outcome }

/-- The `const maxMemory = 10 << 20` of `handler_upload_thumbnail.go`. -/
def thumbMaxMemory : Nat := 10 <<< 20

/-- Result of multipart parsing: whether it succeeded, and whether file
parts were written to temporary disk files rather than held in memory. -/
structure MultipartParse where
  ok : Bool
  spilledToDisk : Bool
deriving DecidableEq

/-- Go net/http `Request.ParseMultipartForm(maxMemory)`, modelled from the
standard library's documented semantics (the call is library code): the
whole body is parsed; up to `maxMemory` bytes of file parts are held in
memory and the remainder is written to temporary files on disk.  The
argument is a memory threshold, not a size cap: parsing fails only when
the form itself is malformed, never because the body is larger than
`maxMemory`.  (A hard size cap would come from `http.MaxBytesReader`,
which the video handler installs on its body and the thumbnail handler
does not.) -/
def parseMultipartForm (bodySize maxMemory : Nat) (wellFormed : Bool) : MultipartParse :=
  { ok := wellFormed, spilledToDisk := wellFormed && decide (maxMemory < bodySize) }

/-- The `mimeToExt` map of `handler_upload_thumbnail.go` lines 17 to 20,
as a lookup function. -/
def mimeToExt (m : String) : Option String :=
  if m = "image/png" then some ".png"
  else if m = "image/jpeg" then some ".jpg"
  else none

/-- The environment of one `handlerUploadThumbnail` request, in program
order: `videoIDOk` is success of `uuid.Parse`; `tokenOk` of
`auth.GetBearerToken`; `jwtUser` the identity from `auth.ValidateJWT`;
`bodySize` the size of the request body in bytes and `wellFormedForm`
whether it is a well-formed multipart form; `formFileOk` success of
`r.FormFile("thumbnail")`; `contentType` the media type from
`mime.ParseMediaType`; `getVideoResult` from `cfg.db.GetVideo`;
`createFileOk` success of `os.Create`; `copyOk` of `io.Copy`; `updateOk`
of `cfg.db.UpdateVideo`; `randBytes` the 32 bytes `rand.Read` fills. -/
structure ThumbReq where
  videoIDOk : Bool
  tokenOk : Bool
  jwtUser : Option Nat
  bodySize : Nat
  wellFormedForm : Bool
  formFileOk : Bool
  contentType : Option String
  getVideoResult : Option Video
  createFileOk : Bool
  copyOk : Bool
  updateOk : Bool
  randBytes : List (Fin 256)
deriving DecidableEq

/-- The observable effects of one `handlerUploadThumbnail` request. -/
structure ThumbEffects where
  fileCreated : Bool
  updateCalled : Bool
  updatedRecord : Option Video
  outcome : HandlerOutcome
  spilledToDisk : Bool
deriving DecidableEq

/-- Effects of an error response written before any side effect. -/
def tErr (status : Nat) : ThumbEffects :=
  { fileCreated := false, updateCalled := false, updatedRecord := none,
    outcome := .response status, spilledToDisk := false }

/-- Lines 87 to 114 of `handlerUploadThumbnail`: the steps after the
extension lookup — the random file name, file creation (note the missing
`return` after its 500 error response: execution continues, `io.Copy`
into the nil file handle then fails with `os.ErrInvalid` and a second
error response is attempted, but the 500 already written stands), the
copy (500), the thumbnailURL template and UpdateVideo (400), and 200 with
the updated record. -/
def thumbStoreSteps (cfg : ApiConfig) (req : ThumbReq) (videoMetadata : Video)
    (fileExtension : String) (spilled : Bool) : ThumbEffects :=
  let fileName := String.mk (base64RawURLEncode req.randBytes) ++ fileExtension
  if !req.createFileOk then
    { tErr 500 with spilledToDisk := spilled }
  else if !req.copyOk then
    { fileCreated := true, updateCalled := false, updatedRecord := none,
      outcome := .response 500, spilledToDisk := spilled }
  else
    let dataUrl := "http://localhost:" ++ cfg.port ++ "/assets/" ++ fileName
    let updated := { videoMetadata with thumbnailURL := some dataUrl }
    if !req.updateOk then
      { fileCreated := true, updateCalled := true, updatedRecord := some updated,
        outcome := .response 400, spilledToDisk := spilled }
    else
      { fileCreated := true, updateCalled := true, updatedRecord := some updated,
        outcome := .response 200, spilledToDisk := spilled }

/-- Embeds `handlerUploadThumbnail` (lines 22 to 115), in source order: id
parse (400), bearer token (401), JWT (401), ParseMultipartForm (400),
FormFile (400), media-type parse (400), the jpeg-or-png allow-list (400),
GetVideo (500), ownership (401), the `mimeToExt` lookup (400), file
creation — note the missing `return` after its 500 error response:
execution continues, `io.Copy` into the nil file handle then fails with
`os.ErrInvalid` and a second error response is attempted, but the 500
already written stands — copy (500), UpdateVideo (400), and 200 with the
updated record. -/
def handlerUploadThumbnail (cfg : ApiConfig) (req : ThumbReq) : ThumbEffects :=
  if !req.videoIDOk then tErr 400
  else if !req.tokenOk then tErr 401
  else
    match req.jwtUser with
    | none => tErr 401
    | some userID =>
      let pf := parseMultipartForm req.bodySize thumbMaxMemory req.wellFormedForm
      if !pf.ok then tErr 400
      else if !req.formFileOk then { tErr 400 with spilledToDisk := pf.spilledToDisk }
      else
        match req.contentType with
        | none => { tErr 400 with spilledToDisk := pf.spilledToDisk }
        | some mediaType =>
          if ¬ (mediaType = "image/jpeg" ∨ mediaType = "image/png") then
            { tErr 400 with spilledToDisk := pf.spilledToDisk }
          else
            match req.getVideoResult with
            | none => { tErr 500 with spilledToDisk := pf.spilledToDisk }
            | some videoMetadata =>
              if userID ≠ videoMetadata.userID then
                { tErr 401 with spilledToDisk := pf.spilledToDisk }
              else
                match mimeToExt mediaType with
                | none => { tErr 400 with spilledToDisk := pf.spilledToDisk }
                | some fileExtension =>
                  thumbStoreSteps cfg req videoMetadata fileExtension
                    pf.spilledToDisk

/-- A video record fixture owned by user 42. -/
def vidFix : Video :=
  { id := 7, userID := 42, videoURL := none, thumbnailURL := none,
    title := "t", description := "d" }

/-- A configuration fixture. -/
def cfgFix : ApiConfig :=
  { s3Bucket := "tubely", s3Region := "us-east-1", port := "8091",
    assetsRoot := "assets" }

/-- A video-upload request by the owner that passes every stage up to
classification, and whose ffprobe subprocess exits with a non-zero
status. -/
def reqProbeExit : VideoReq :=
  { videoIDOk := true, tokenOk := true, jwtUser := some 42,
    getVideoResult := some vidFix, formFileOk := true,
    contentType := some "video/mp4", createTempOk := true, copyOk := true,
    seekOk := true, probe := { run := .exitError, parse := none },
    randOk := true, randBytes := List.replicate 32 0, putObjectOk := true,
    updateOk := true }

/-- Like `reqProbeExit`, but the probe succeeds and its output parses to
an empty stream list. -/
def reqEmptyStreams : VideoReq :=
  { reqProbeExit with probe := { run := .success, parse := some [] } }

/-- Like `reqProbeExit`, but the probe parses to a single 1920 by 1080
stream, so every stage succeeds. -/
def reqAllOk : VideoReq :=
  { reqProbeExit with probe := { run := .success, parse := some [⟨1920, 1080⟩] } }

/-- A video-upload request by a non-owner (user 1 against a record owned
by 42). -/
def vreqNonOwner : VideoReq :=
  { reqAllOk with jwtUser := some 1 }

/-- A video-upload request by the owner whose part declares a non-mp4
content type. -/
def vreqBadCT : VideoReq :=
  { reqAllOk with contentType := some "video/quicktime" }

/-- A thumbnail request fixture by the owner with a valid png part. -/
def treqAllOk : ThumbReq :=
  { videoIDOk := true, tokenOk := true, jwtUser := some 42, bodySize := 100,
    wellFormedForm := true, formFileOk := true, contentType := some "image/png",
    getVideoResult := some vidFix, createFileOk := true, copyOk := true,
    updateOk := true, randBytes := List.replicate 32 0 }

/-- A thumbnail request by a non-owner whose part declares an
unrecognized content type. -/
def treqNonOwnerBadCT : ThumbReq :=
  { treqAllOk with jwtUser := some 1, contentType := some "text/plain" }

/-- A thumbnail request by a non-owner with a valid png part. -/
def treqNonOwnerPNG : ThumbReq :=
  { treqAllOk with jwtUser := some 1 }

/-- A thumbnail request by the owner with an unrecognized content type. -/
def treqBadCT : ThumbReq :=
  { treqAllOk with contentType := some "text/plain" }

/-- A thumbnail request whose body is 11 MiB — above the 10 MiB constant —
and otherwise fully valid, from the record owner. -/
def treqBig : ThumbReq :=
  { treqAllOk with bodySize := 11 <<< 20 }

/-- The classification of lines 172 to 177 either panics or returns a
ratio string with a nil error; it never returns a non-nil error. -/
theorem classifyFirstStream_not_errReturn (streams : List StreamInfo) :
    classifyFirstStream streams ≠ .errReturn := by
  delta classifyFirstStream
  repeat' split
  all_goals simp

/-- No execution of `getVideoAspectRatio` returns a non-nil error to its
caller: every failure path ends in `log.Fatal` or a panic. -/
theorem getVideoAspectRatio_not_errReturn (env : ProbeEnv) :
    getVideoAspectRatio env ≠ .errReturn := by
  delta getVideoAspectRatio
  repeat' split
  all_goals
    first
    | exact classifyFirstStream_not_errReturn _
    | simp

/-- Hex encoding yields two characters per byte. -/
theorem hexChars_length (bs : List (Fin 256)) :
    (hexChars bs).length = 2 * bs.length := by
  induction bs with
  | nil => rfl
  | cons b t ih =>
    simp only [hexChars, List.map_cons, List.flatten_cons, List.length_append,
      List.length_cons, List.length_nil] at ih ⊢
    omega

/-- Every character of a hex encoding is a lowercase hex digit. -/
theorem hexChars_mem (bs : List (Fin 256)) :
    ∀ c ∈ hexChars bs, ∃ n, n < 16 ∧ c = hexDigit n := by
  intro c hc
  simp only [hexChars, List.mem_flatten, List.mem_map] at hc
  obtain ⟨l, ⟨b, hb, rfl⟩, hcl⟩ := hc
  have hlt := b.isLt
  simp only [List.mem_cons, List.not_mem_nil, or_false] at hcl
  rcases hcl with h | h
  · exact ⟨b.val / 16, by omega, h⟩
  · exact ⟨b.val % 16, by omega, h⟩

/-- The deferred temp-file removal of `handlerUploadVideo` runs exactly
when the file was created and the outcome is not a process exit. -/
theorem handlerUploadVideo_tempRemoved (cfg : ApiConfig) (req : VideoReq) :
    (handlerUploadVideo cfg req).tempRemoved =
      ((handlerUploadVideo cfg req).tempCreated &&
        defersRun (handlerUploadVideo cfg req).outcome) := by
  delta handlerUploadVideo
  repeat' split
  all_goals simp [vErr, vEff]

/-- C1: for every positive (width, height) pair taken as the first stream
descriptor, the classifier returns a ratio string that the handler maps
to `landscape` iff width over height truncates to 1, to `portrait` iff
not landscape and height over width truncates to 1, and to `other` in
all remaining cases. -/
theorem claim_C1 (w h : Int) (hw : 0 < w) (hh : 0 < h) :
    ∃ s, classifyFirstStream [⟨w, h⟩] = .ok s ∧
      (videoTypeOf s = "landscape" ↔ Int.tdiv w h = 1) ∧
      (videoTypeOf s = "portrait" ↔ (Int.tdiv w h ≠ 1 ∧ Int.tdiv h w = 1)) ∧
      (videoTypeOf s = "other" ↔ (Int.tdiv w h ≠ 1 ∧ Int.tdiv h w ≠ 1)) := by
  have hw0 : w ≠ 0 := by omega
  have hh0 : h ≠ 0 := by omega
  have h169 : Int.tdiv 16 9 = 1 := by decide
  by_cases h1 : Int.tdiv w h = 1
  · refine ⟨"16:9", ?_, ?_, ?_, ?_⟩
    · simp [classifyFirstStream, goDiv, hh0, h169, h1]
    · simp [videoTypeOf, h1]
    · constructor
      · intro hx; exact absurd hx (by decide)
      · rintro ⟨hx, _⟩; exact absurd h1 hx
    · constructor
      · intro hx; exact absurd hx (by decide)
      · rintro ⟨hx, _⟩; exact absurd h1 hx
  · by_cases h2 : Int.tdiv h w = 1
    · refine ⟨"9:16", ?_, ?_, ?_, ?_⟩
      · simp [classifyFirstStream, goDiv, hh0, hw0, h169, h1, h2]
      · constructor
        · intro hx; exact absurd hx (by decide)
        · intro hx; exact absurd hx h1
      · simp [videoTypeOf, h1, h2]
      · constructor
        · intro hx; exact absurd hx (by decide)
        · rintro ⟨_, hx⟩; exact absurd h2 hx
    · refine ⟨"other", ?_, ?_, ?_, ?_⟩
      · simp [classifyFirstStream, goDiv, hh0, hw0, h169, h1, h2]
      · constructor
        · intro hx; exact absurd hx (by decide)
        · intro hx; exact absurd hx h1
      · constructor
        · intro hx; exact absurd hx (by decide)
        · rintro ⟨_, hx⟩; exact absurd hx h2
      · simp [videoTypeOf, h1, h2]

/-- Witness for C1 at the concrete pair (1920, 1080). -/
theorem claim_C1_witness :
    ∃ s, classifyFirstStream [⟨1920, 1080⟩] = .ok s ∧
      (videoTypeOf s = "landscape" ↔ Int.tdiv 1920 1080 = 1) ∧
      (videoTypeOf s = "portrait" ↔
        (Int.tdiv 1920 1080 ≠ 1 ∧ Int.tdiv 1080 1920 = 1)) ∧
      (videoTypeOf s = "other" ↔
        (Int.tdiv 1920 1080 ≠ 1 ∧ Int.tdiv 1080 1920 ≠ 1)) :=
  claim_C1 1920 1080 (by decide) (by decide)

/-- C2 counterexample: the claim maps (1000, 999) to `other`, but the code
classifies it as 16:9, which the handler labels `landscape`, because
1000 over 999 truncates to 1. -/
theorem claim_C2_counterexample :
    classifyFirstStream [⟨1000, 999⟩] = .ok "16:9" ∧
    videoTypeOf "16:9" = "landscape" ∧ "landscape" ≠ "other" := by
  refine ⟨by decide, by decide, by decide⟩

/-- C2 amended: (1920, 1080) gives landscape and (1080, 1920) gives
portrait as claimed, but (1000, 999) and (100, 100) both give landscape,
not other, since in both the width over height quotient truncates to 1. -/
theorem claim_C2_amended :
    (classifyFirstStream [⟨1920, 1080⟩] = .ok "16:9" ∧
      videoTypeOf "16:9" = "landscape") ∧
    (classifyFirstStream [⟨1080, 1920⟩] = .ok "9:16" ∧
      videoTypeOf "9:16" = "portrait") ∧
    (classifyFirstStream [⟨1000, 999⟩] = .ok "16:9" ∧
      videoTypeOf "16:9" = "landscape") ∧
    (classifyFirstStream [⟨100, 100⟩] = .ok "16:9" ∧
      videoTypeOf "16:9" = "landscape") := by
  refine ⟨⟨by decide, by decide⟩, ⟨by decide, by decide⟩,
    ⟨by decide, by decide⟩, ⟨by decide, by decide⟩⟩

/-- C10: the classifier divisions are unguarded: on a single first stream
the classification panics exactly when width or height is zero (division
by zero, or the empty-guard-free quotient chain), and returns a
classification exactly when both are nonzero. -/
theorem claim_C10 (w h : Int) :
    (classifyFirstStream [⟨w, h⟩] = .panicked ↔ (w = 0 ∨ h = 0)) ∧
    ((w ≠ 0 ∧ h ≠ 0) → ∃ s, classifyFirstStream [⟨w, h⟩] = .ok s) := by
  have h169 : Int.tdiv 16 9 = 1 := by decide
  by_cases hh : h = 0
  · subst hh
    constructor
    · simp [classifyFirstStream, goDiv]
    · rintro ⟨_, hx⟩; exact absurd rfl hx
  · by_cases hw : w = 0
    · subst hw
      constructor
      · simp [classifyFirstStream, goDiv, hh, Int.zero_tdiv, h169]
      · rintro ⟨hx, _⟩; exact absurd rfl hx
    · constructor
      · constructor
        · intro hx
          by_cases h1 : Int.tdiv w h = 1
          · simp [classifyFirstStream, goDiv, hh, hw, h169, h1] at hx
          · by_cases h2 : Int.tdiv h w = 1
            · simp [classifyFirstStream, goDiv, hh, hw, h169, h1, h2] at hx
            · simp [classifyFirstStream, goDiv, hh, hw, h169, h1, h2] at hx
        · rintro (hx | hx)
          · exact absurd hx hw
          · exact absurd hx hh
      · intro _
        by_cases h1 : Int.tdiv w h = 1
        · exact ⟨"16:9", by simp [classifyFirstStream, goDiv, hh, h169, h1]⟩
        · by_cases h2 : Int.tdiv h w = 1
          · exact ⟨"9:16",
              by simp [classifyFirstStream, goDiv, hh, hw, h169, h1, h2]⟩
          · exact ⟨"other",
              by simp [classifyFirstStream, goDiv, hh, hw, h169, h1, h2]⟩

/-- C3 (a code bug in the source): when the probe subprocess exits
non-zero, or its output fails to unmarshal, `getVideoAspectRatio` does
not return an error to the handler — `log.Fatal` exits the process and
the `return "", err` statements after it are dead code — so the
handler's 500 branch for classification failure is unreachable: the
request ends in a process exit, not a 500 response. -/
theorem claim_C3 :
    getVideoAspectRatio { run := .exitError, parse := none } = .fatal ∧
    getVideoAspectRatio { run := .success, parse := none } = .fatal ∧
    (∀ env : ProbeEnv, getVideoAspectRatio env ≠ .errReturn) ∧
    (handlerUploadVideo cfgFix reqProbeExit).outcome = .processExit ∧
    (handlerUploadVideo cfgFix reqProbeExit).outcome ≠ .response 500 :=
  ⟨by decide, by decide, getVideoAspectRatio_not_errReturn, by decide, by decide⟩

/-- C4 counterexample: with the probe output parsing to an empty stream
list, the request ends in a panic — the out-of-range index of
`file.Streams[0]` — and not in a 500 response. -/
theorem claim_C4_counterexample :
    (handlerUploadVideo cfgFix reqEmptyStreams).outcome = .panicked ∧
    (handlerUploadVideo cfgFix reqEmptyStreams).outcome ≠ .response 500 :=
  ⟨by decide, by decide⟩

/-- C4 amended: an empty parsed stream list hits the unguarded index
`file.Streams[0]` and panics; the handler writes no 500 response — the
panic propagates out of the handler, though the deferred temp-file
removal still runs while the panic unwinds. -/
theorem claim_C4_amended (cfg : ApiConfig) (req : VideoReq) (u : Nat) (v : Video)
    (h1 : req.videoIDOk = true) (h2 : req.tokenOk = true)
    (h3 : req.jwtUser = some u) (h4 : req.getVideoResult = some v)
    (h5 : u = v.userID) (h6 : req.formFileOk = true)
    (h7 : req.contentType = some "video/mp4") (h8 : req.createTempOk = true)
    (h9 : req.copyOk = true) (h10 : req.seekOk = true)
    (h11 : req.probe = { run := .success, parse := some [] }) :
    (handlerUploadVideo cfg req).outcome = .panicked ∧
    (handlerUploadVideo cfg req).tempCreated = true ∧
    (handlerUploadVideo cfg req).tempRemoved = true := by
  refine ⟨?_, ?_, ?_⟩ <;>
    simp [handlerUploadVideo, videoUploadSteps, getVideoAspectRatio,
      classifyFirstStream, h1, h2, h3, h4, h5, h6, h7, h8, h9, h10, h11,
      vErr, vEff, defersRun]

/-- Witness for C4 at a concrete all-stages-pass request whose probe
parses to an empty stream list. -/
theorem claim_C4_witness :
    (handlerUploadVideo cfgFix reqEmptyStreams).outcome = .panicked ∧
    (handlerUploadVideo cfgFix reqEmptyStreams).tempCreated = true ∧
    (handlerUploadVideo cfgFix reqEmptyStreams).tempRemoved = true :=
  claim_C4_amended cfgFix reqEmptyStreams 42 vidFix rfl rfl rfl rfl rfl rfl
    rfl rfl rfl rfl rfl

/-- C5 (a code bug in the source): once the temp file exists, its deferred
removal runs on every normal return and on panics; but when
classification hits `log.Fatal` the process exits without running
deferred calls, so on that exit path the temp file is not removed. -/
theorem claim_C5 :
    (handlerUploadVideo cfgFix reqProbeExit).tempCreated = true ∧
    (handlerUploadVideo cfgFix reqProbeExit).tempRemoved = false ∧
    (∀ (cfg : ApiConfig) (req : VideoReq),
      (handlerUploadVideo cfg req).outcome ≠ .processExit →
      (handlerUploadVideo cfg req).tempRemoved =
        (handlerUploadVideo cfg req).tempCreated) := by
  refine ⟨by decide, by decide, ?_⟩
  intro cfg req hne
  have hd : defersRun (handlerUploadVideo cfg req).outcome = true := by
    cases ho : (handlerUploadVideo cfg req).outcome with
    | processExit => exact absurd ho hne
    | response s => rfl
    | panicked => rfl
  rw [handlerUploadVideo_tempRemoved, hd, Bool.and_true]

/-- On the thumbnail path the record updater sits after the ownership
gate, so a non-owner request never reaches it and never succeeds. -/
theorem handlerUploadThumbnail_nonowner (cfg : ApiConfig) (req : ThumbReq)
    (u : Nat) (v : Video) (h3 : req.jwtUser = some u)
    (h4 : req.getVideoResult = some v) (h5 : u ≠ v.userID) :
    (handlerUploadThumbnail cfg req).updateCalled = false ∧
    (handlerUploadThumbnail cfg req).outcome ≠ .response 200 := by
  delta handlerUploadThumbnail
  simp only [h3, h4]
  repeat' split
  all_goals simp_all [tErr, parseMultipartForm]

/-- C6 counterexample: in the thumbnail handler the content-type check
precedes the ownership check, so a non-owner uploading with an
unrecognized content type receives 400, not the claimed 401 (though the
record is indeed not mutated). -/
theorem claim_C6_counterexample :
    (handlerUploadThumbnail cfgFix treqNonOwnerBadCT).outcome = .response 400 ∧
    HandlerOutcome.response 400 ≠ HandlerOutcome.response 401 ∧
    (handlerUploadThumbnail cfgFix treqNonOwnerBadCT).updateCalled = false :=
  ⟨by decide, by decide, by decide⟩

/-- C6 amended: a non-owner request never mutates the record in either
handler.  The video handler checks ownership before reading the uploaded
part, so a non-owner always receives 401 there regardless of content
validity; the thumbnail handler validates the content type first, so a
non-owner receives 401 only when the content checks pass — with an
invalid content type a 400 is written instead. -/
theorem claim_C6_amended (cfg : ApiConfig) (vreq : VideoReq) (treq : ThumbReq)
    (u : Nat) (v : Video) (u2 : Nat) (v2 : Video)
    (hv1 : vreq.videoIDOk = true) (hv2 : vreq.tokenOk = true)
    (hv3 : vreq.jwtUser = some u) (hv4 : vreq.getVideoResult = some v)
    (hv5 : u ≠ v.userID)
    (ht3 : treq.jwtUser = some u2) (ht4 : treq.getVideoResult = some v2)
    (ht5 : u2 ≠ v2.userID) :
    (handlerUploadVideo cfg vreq).outcome = .response 401 ∧
    (handlerUploadVideo cfg vreq).updateCalled = false ∧
    (handlerUploadVideo cfg vreq).s3PutCalled = false ∧
    (handlerUploadVideo cfg vreq).tempCreated = false ∧
    (handlerUploadThumbnail cfg treq).updateCalled = false ∧
    (handlerUploadThumbnail cfg treq).outcome ≠ .response 200 ∧
    (treq.videoIDOk = true → treq.tokenOk = true → treq.wellFormedForm = true →
      treq.formFileOk = true → ∀ ct, treq.contentType = some ct →
      (ct = "image/jpeg" ∨ ct = "image/png") →
      (handlerUploadThumbnail cfg treq).outcome = .response 401) := by
  obtain ⟨hA, hB⟩ := handlerUploadThumbnail_nonowner cfg treq u2 v2 ht3 ht4 ht5
  refine ⟨?_, ?_, ?_, ?_, hA, hB, ?_⟩
  · simp [handlerUploadVideo, hv1, hv2, hv3, hv4, hv5, vErr, vEff]
  · simp [handlerUploadVideo, hv1, hv2, hv3, hv4, hv5, vErr, vEff]
  · simp [handlerUploadVideo, hv1, hv2, hv3, hv4, hv5, vErr, vEff]
  · simp [handlerUploadVideo, hv1, hv2, hv3, hv4, hv5, vErr, vEff]
  · intro t1 t2 t3 t4 ct hct hor
    rcases hor with h | h <;> subst h <;>
      simp [handlerUploadThumbnail, parseMultipartForm, mimeToExt, thumbStoreSteps,
        t1, t2, t3, t4, ht3, hct, ht4, ht5, tErr]

/-- Witness for C6 at concrete non-owner requests: user 1 against a record
owned by 42, with a valid mp4 part on the video path and a valid png part
on the thumbnail path. -/
theorem claim_C6_witness :
    (handlerUploadVideo cfgFix vreqNonOwner).outcome = .response 401 ∧
    (handlerUploadThumbnail cfgFix treqNonOwnerPNG).updateCalled = false ∧
    (handlerUploadThumbnail cfgFix treqNonOwnerPNG).outcome = .response 401 := by
  have h := claim_C6_amended cfgFix vreqNonOwner treqNonOwnerPNG 1 vidFix 1 vidFix
    rfl rfl rfl rfl (by decide) rfl rfl (by decide)
  exact ⟨h.1, h.2.2.2.2.1, h.2.2.2.2.2.2 rfl rfl rfl rfl "image/png" rfl
    (Or.inr rfl)⟩

/-- C7: an upload whose declared content type is outside the allow-list —
exactly `video/mp4` on the video path, `image/jpeg` or `image/png` on
the thumbnail path — is rejected with 400 before the temp file or the S3
put, the local asset file, or the record updater is reached. -/
theorem claim_C7 (cfg : ApiConfig) (vreq : VideoReq) (treq : ThumbReq)
    (u : Nat) (v : Video) (ct ct2 : String)
    (hv1 : vreq.videoIDOk = true) (hv2 : vreq.tokenOk = true)
    (hv3 : vreq.jwtUser = some u) (hv4 : vreq.getVideoResult = some v)
    (hv5 : u = v.userID) (hv6 : vreq.formFileOk = true)
    (hv7 : vreq.contentType = some ct) (hv8 : ct ≠ "video/mp4")
    (ht1 : treq.videoIDOk = true) (ht2 : treq.tokenOk = true)
    (ht3 : treq.jwtUser = some u) (ht4 : treq.wellFormedForm = true)
    (ht5 : treq.formFileOk = true) (ht6 : treq.contentType = some ct2)
    (ht7 : ¬ (ct2 = "image/jpeg" ∨ ct2 = "image/png")) :
    (handlerUploadVideo cfg vreq).outcome = .response 400 ∧
    (handlerUploadVideo cfg vreq).s3PutCalled = false ∧
    (handlerUploadVideo cfg vreq).updateCalled = false ∧
    (handlerUploadVideo cfg vreq).tempCreated = false ∧
    (handlerUploadThumbnail cfg treq).outcome = .response 400 ∧
    (handlerUploadThumbnail cfg treq).fileCreated = false ∧
    (handlerUploadThumbnail cfg treq).updateCalled = false := by
  refine ⟨?_, ?_, ?_, ?_, ?_, ?_, ?_⟩ <;>
    simp [handlerUploadVideo, handlerUploadThumbnail, parseMultipartForm,
      hv1, hv2, hv3, hv4, hv5, hv6, hv7, hv8, ht1, ht2, ht3, ht4, ht5, ht6, ht7,
      vErr, vEff, tErr]

/-- Witness for C7 at concrete owner requests declaring `video/quicktime`
and `text/plain` parts. -/
theorem claim_C7_witness :
    (handlerUploadVideo cfgFix vreqBadCT).outcome = .response 400 ∧
    (handlerUploadVideo cfgFix vreqBadCT).s3PutCalled = false ∧
    (handlerUploadVideo cfgFix vreqBadCT).updateCalled = false ∧
    (handlerUploadVideo cfgFix vreqBadCT).tempCreated = false ∧
    (handlerUploadThumbnail cfgFix treqBadCT).outcome = .response 400 ∧
    (handlerUploadThumbnail cfgFix treqBadCT).fileCreated = false ∧
    (handlerUploadThumbnail cfgFix treqBadCT).updateCalled = false :=
  claim_C7 cfgFix vreqBadCT treqBadCT 42 vidFix "video/quicktime" "text/plain"
    rfl rfl rfl rfl rfl rfl rfl (by decide) rfl rfl rfl rfl rfl rfl (by decide)

/-- C8: a fully successful video upload responds 200 and updates exactly
the videoURL field — to the https URL built of the bucket, the region,
the derived classification label, 64 lowercase hex characters encoding
the 32 random bytes, and the .mp4 suffix — while every other field of
the record is passed through unchanged. -/
theorem claim_C8 (cfg : ApiConfig) (req : VideoReq) (u : Nat) (v : Video)
    (ratio : String)
    (h1 : req.videoIDOk = true) (h2 : req.tokenOk = true)
    (h3 : req.jwtUser = some u) (h4 : req.getVideoResult = some v)
    (h5 : u = v.userID) (h6 : req.formFileOk = true)
    (h7 : req.contentType = some "video/mp4") (h8 : req.createTempOk = true)
    (h9 : req.copyOk = true) (h10 : req.seekOk = true)
    (h11 : getVideoAspectRatio req.probe = .ok ratio)
    (h12 : req.randOk = true) (h13 : req.randBytes.length = 32)
    (h14 : req.putObjectOk = true) (h15 : req.updateOk = true) :
    (handlerUploadVideo cfg req).outcome = .response 200 ∧
    (handlerUploadVideo cfg req).updatedRecord =
      some { v with videoURL := some ("https://" ++ cfg.s3Bucket ++ ".s3." ++
        cfg.s3Region ++ ".amazonaws.com/" ++
        (videoTypeOf ratio ++ "/" ++ hexEncodeToString req.randBytes ++ ".mp4")) } ∧
    (hexEncodeToString req.randBytes).length = 64 ∧
    (∀ c ∈ hexChars req.randBytes, ∃ n, n < 16 ∧ c = hexDigit n) := by
  refine ⟨?_, ?_, ?_, hexChars_mem req.randBytes⟩
  · simp [handlerUploadVideo, videoUploadSteps, h1, h2, h3, h4, h5, h6, h7, h8,
      h9, h10, h11, h12, h14, h15, vErr, vEff, defersRun]
  · simp [handlerUploadVideo, videoUploadSteps, h1, h2, h3, h4, h5, h6, h7, h8,
      h9, h10, h11, h12, h14, h15, vErr, vEff, defersRun]
  · have he : (hexEncodeToString req.randBytes).length =
      (hexChars req.randBytes).length := rfl
    rw [he, hexChars_length, h13]

/-- Witness for C8 at a concrete all-stages-pass request (probe parses to
a single 1920 by 1080 stream, 32 zero random bytes). -/
theorem claim_C8_witness :
    (handlerUploadVideo cfgFix reqAllOk).outcome = .response 200 ∧
    (handlerUploadVideo cfgFix reqAllOk).updatedRecord =
      some { vidFix with videoURL := some ("https://" ++ cfgFix.s3Bucket ++
        ".s3." ++ cfgFix.s3Region ++ ".amazonaws.com/" ++
        (videoTypeOf "16:9" ++ "/" ++ hexEncodeToString reqAllOk.randBytes ++
          ".mp4")) } ∧
    (hexEncodeToString reqAllOk.randBytes).length = 64 ∧
    (∀ c ∈ hexChars reqAllOk.randBytes, ∃ n, n < 16 ∧ c = hexDigit n) :=
  claim_C8 cfgFix reqAllOk 42 vidFix "16:9" rfl rfl rfl rfl rfl rfl rfl rfl
    rfl rfl (by decide) rfl (by decide) rfl rfl

/-- C9 counterexample: a well-formed thumbnail request whose body is
11 MiB — above the 10 MiB constant — is not rejected: the handler
processes it to completion, responding 200 and updating the record,
with file parts beyond the in-memory threshold spilled to disk. -/
theorem claim_C9_counterexample :
    thumbMaxMemory < treqBig.bodySize ∧
    (handlerUploadThumbnail cfgFix treqBig).outcome = .response 200 ∧
    (handlerUploadThumbnail cfgFix treqBig).updateCalled = true ∧
    (handlerUploadThumbnail cfgFix treqBig).spilledToDisk = true :=
  ⟨by decide, by decide, by decide, by decide⟩

/-- C9 amended: the thumbnail handler passes its 10 MiB constant to
`ParseMultipartForm` as the in-memory threshold, not as a cap: a
well-formed request whose body exceeds 10 MiB still parses and is
processed to completion (its file parts spilled to temporary disk
files); no body-size rejection exists on the thumbnail path. -/
theorem claim_C9_amended (cfg : ApiConfig) (req : ThumbReq) (u : Nat) (v : Video)
    (h1 : req.videoIDOk = true) (h2 : req.tokenOk = true)
    (h3 : req.jwtUser = some u) (h4 : req.wellFormedForm = true)
    (h5 : req.formFileOk = true) (h6 : req.contentType = some "image/png")
    (h7 : req.getVideoResult = some v) (h8 : u = v.userID)
    (h9 : req.createFileOk = true) (h10 : req.copyOk = true)
    (h11 : req.updateOk = true) (hbig : thumbMaxMemory < req.bodySize) :
    (parseMultipartForm req.bodySize thumbMaxMemory req.wellFormedForm).ok = true ∧
    (handlerUploadThumbnail cfg req).outcome = .response 200 ∧
    (handlerUploadThumbnail cfg req).updateCalled = true ∧
    (handlerUploadThumbnail cfg req).spilledToDisk = true := by
  refine ⟨by simp [parseMultipartForm, h4], ?_, ?_, ?_⟩ <;>
    simp [handlerUploadThumbnail, parseMultipartForm, mimeToExt, thumbStoreSteps,
      h1, h2, h3, h4, h5, h6, h7, h8, h9, h10, h11, hbig, tErr]

/-- Witness for C9 at the concrete 11 MiB request. -/
theorem claim_C9_witness :
    (parseMultipartForm treqBig.bodySize thumbMaxMemory
      treqBig.wellFormedForm).ok = true ∧
    (handlerUploadThumbnail cfgFix treqBig).outcome = .response 200 ∧
    (handlerUploadThumbnail cfgFix treqBig).updateCalled = true ∧
    (handlerUploadThumbnail cfgFix treqBig).spilledToDisk = true :=
  claim_C9_amended cfgFix treqBig 42 vidFix rfl rfl rfl rfl rfl rfl rfl rfl
    rfl rfl rfl (by decide)

/-- Witness for C10: at (1920, 0) the classifier panics, and at
(1920, 1080) it returns a classification. -/
theorem claim_C10_witness :
    classifyFirstStream [⟨1920, 0⟩] = .panicked ∧
    (∃ s, classifyFirstStream [⟨1920, 1080⟩] = .ok s) :=
  ⟨(claim_C10 1920 0).1.mpr (Or.inr rfl),
    (claim_C10 1920 1080).2 ⟨by decide, by decide⟩⟩
